import Mathlib

/-!
Shallow embedding of the Mayavi pipeline-lifecycle core:
`Source` (src/enthought/mayavi/core/source.py) and
`VTKDataSource` (src/enthought/mayavi/sources/vtk_data_source.py),
together with theorems settling the spec claims about them.
-/

namespace Mayavi

/-! ## The `Source` lifecycle model (core/source.py)

A `Source`'s children are arbitrary pipeline objects (`Base` instances:
filters, module managers, sub-sources).  Their own `start`/`stop` behaviour
is not under src/, so a child is modelled as an opaque pipeline object with
a `running` flag and possibly-failing `start`/`stop` methods. -/

/-- The kind of a child object, as discriminated by the `isinstance` checks
in `Source._handle_children` and `Source.add_module`. -/
inductive ChildKind where
  | moduleManager
  | filter
  | other
deriving DecidableEq, Repr

/-- Modelled from the spec: an opaque child pipeline object (`Base`
subclass instance; `Base`, `Module`, `ModuleManager` are not under src/).
Per the spec, `start()` is a no-op when already running and otherwise marks
the object running, `stop()` is a no-op when not running and otherwise
marks it not running; either may raise, modelled by the `startFails` /
`stopFails` failure flags.  A `moduleManager`
child additionally owns a list of modules (opaque ids), a `source`
back-reference; a `filter` child owns an `inputs` list. -/
structure Child where
  kind : ChildKind
  running : Bool
  startFails : Bool
  stopFails : Bool
  scene : Option Nat
  source : Option Nat
  inputs : List Nat
  modules : List Nat
deriving DecidableEq, Repr

/-- `obj.start()` for a child: no-op if running, may raise, else marks
running. -/
def childStart (c : Child) : Except Unit Child :=
  if c.running then Except.ok c
  else if c.startFails then Except.error ()
  else Except.ok { c with running := true }

/-- `obj.stop()` for a child: no-op if not running, may raise, else marks
not running. -/
def childStop (c : Child) : Except Unit Child :=
  if !c.running then Except.ok c
  else if c.stopFails then Except.error ()
  else Except.ok { c with running := false }

/-- `try: obj.start() except: exception()` — the caught start used in
`Source.start` and `Source._handle_children`.  Returns the resulting child
and whether an exception was logged. -/
def startCaught (c : Child) : Child × Bool :=
  match childStart c with
  | Except.ok c2 => (c2, false)
  | Except.error _ => (c, true)

/-- Whether a caught start of this child logs an exception. -/
def childStartFails (c : Child) : Bool :=
  !c.running && c.startFails

/-- Whether `obj.stop()` on this child raises. -/
def childStopFails (c : Child) : Bool :=
  c.running && c.stopFails

/-- Result of a successful `obj.stop()` on a child. -/
def childStopOk (c : Child) : Child :=
  if c.running then { c with running := false } else c

/-- The state of a `Source` node.  `logged` counts the exceptions written
to the global log by `exception()` (core/common.py). -/
structure SourceState where
  running : Bool
  children : List Child
  scene : Option Nat
  id : Nat
  logged : Nat
deriving DecidableEq, Repr

/-- The `for obj in self.children: try: obj.start() except: exception()`
loop of `Source.start`: every child is attempted, failures are logged. -/
def startChildren (cs : List Child) : List Child × Nat :=
  match cs with
  | [] => ([], 0)
  | c :: rest =>
    let r := startCaught c
    let rs := startChildren rest
    (r.1 :: rs.1, (if r.2 then 1 else 0) + rs.2)

/-- `Source.start` (source.py lines 81–97): no-op if already running;
otherwise starts all children (catching and logging per-child failures),
then marks the node running (`super().start()`, modelled from the spec:
`PipelineBase.start`, not under src/, marks the node running). -/
def sourceStart (s : SourceState) : SourceState :=
  if s.running then s
  else
    let r := startChildren s.children
    { s with children := r.1, logged := s.logged + r.2, running := true }

/-- The `for obj in self.children: obj.stop()` loop of `Source.stop`: stops
children in order with no exception handling; on a failure the loop aborts,
leaving the prefix stopped (the error carries the partially-processed
list). -/
def stopChildren (cs : List Child) : Except (List Child) (List Child) :=
  match cs with
  | [] => Except.ok []
  | c :: rest =>
    match childStop c with
    | Except.error _ => Except.error (c :: rest)
    | Except.ok c2 =>
      match stopChildren rest with
      | Except.error rest2 => Except.error (c2 :: rest2)
      | Except.ok rest2 => Except.ok (c2 :: rest2)

/-- `Source.stop` (source.py lines 99–111): no-op if not running; otherwise
stops all children unconditionally, then marks the node not running
(`super().stop()`, modelled from the spec).  A child exception propagates:
the result is `Except.error` carrying the node state at the raise point —
in particular `running` is still `true` there, since the post-loop
transition never executes. -/
def sourceStop (s : SourceState) : Except SourceState SourceState :=
  if !s.running then Except.ok s
  else
    match stopChildren s.children with
    | Except.error cs => Except.error { s with children := cs }
    | Except.ok cs => Except.ok { s with children := cs, running := false }

/-- The added-object processing of `Source._handle_children`: set the
child's `scene`, set `source` on a ModuleManager, register this node as an
input on a Filter, and (when the node is running) start the child with the
exception caught and logged. -/
def processAdded (running : Bool) (scene : Option Nat) (selfId : Nat) (c : Child) :
    Child × Bool :=
  let c1 := { c with scene := scene }
  let c2 :=
    match c1.kind with
    | ChildKind.moduleManager => { c1 with source := some selfId }
    | ChildKind.filter => { c1 with inputs := c1.inputs ++ [selfId] }
    | ChildKind.other => c1
  if running then startCaught c2 else (c2, false)

/-- The added-objects loop of `Source._handle_children`. -/
def processAddedAll (running : Bool) (scene : Option Nat) (selfId : Nat)
    (cs : List Child) : List Child × Nat :=
  match cs with
  | [] => ([], 0)
  | c :: rest =>
    let r := processAdded running scene selfId c
    let rs := processAddedAll running scene selfId rest
    (r.1 :: rs.1, (if r.2 then 1 else 0) + rs.2)

/-- `Source._handle_children` (source.py lines 166–182): first stops every
removed child unconditionally (failures propagate), then processes every
added child.  Returns the removed children after their stops and the added
children after processing, plus the number of logged start exceptions; an
error carries the removed list at the raise point. -/
def handleChildren (running : Bool) (scene : Option Nat) (selfId : Nat)
    (removed added : List Child) :
    Except (List Child) (List Child × List Child × Nat) :=
  match stopChildren removed with
  | Except.error cs => Except.error cs
  | Except.ok cs =>
    let r := processAddedAll running scene selfId added
    Except.ok (cs, r.1, r.2)

/-- `self.children.append(c)` on a `Source`: the list mutation fires
`_children_items_changed`, hence `_handle_children([], [c])`, which
processes the appended child in place. -/
def appendChild (s : SourceState) (c : Child) : SourceState :=
  let r := processAdded s.running s.scene s.id c
  { s with children := s.children ++ [r.1],
           logged := s.logged + (if r.2 then 1 else 0) }

/-- Index of the last `ModuleManager` among the children (the
`for child in self.children: if isinstance(child, ModuleManager): mm = child`
scan of `Source.add_module` keeps the last match). -/
def lastMMIdx (cs : List Child) : Option Nat :=
  match cs with
  | [] => none
  | c :: rest =>
    match lastMMIdx rest with
    | some i => some (i + 1)
    | none => if c.kind = ChildKind.moduleManager then some 0 else none

/-- Replace the element at index `i` by `f` applied to it. -/
def modifyAt (i : Nat) (f : Child → Child) : List Child → List Child
  | [] => []
  | c :: cs =>
    match i with
    | 0 => f c :: cs
    | j + 1 => c :: modifyAt j f cs

/-- A freshly constructed `ModuleManager(source=self, scene=self.scene)`
(modelled from the spec: `ModuleManager` is not under src/; it is a
grouping node owning modules, with `running` initially false). -/
def newMM (s : SourceState) : Child :=
  { kind := ChildKind.moduleManager, running := false, startFails := false,
    stopFails := false, scene := s.scene, source := some s.id,
    inputs := [], modules := [] }

/-- `Source.add_module` (source.py lines 60–75): scan for an existing
ModuleManager child (last match wins); if none, create one, start it if the
node is running, and append it to `children` (firing the structural-change
hook); finally append the module to that manager's `children`. -/
def addModule (s : SourceState) (m : Nat) : SourceState :=
  match lastMMIdx s.children with
  | some i =>
    { s with children := modifyAt i (fun c => { c with modules := c.modules ++ [m] })
               s.children }
  | none =>
    let mm := newMM s
    let mm2 := if s.running then (startCaught mm).1 else mm
    let s2 := appendChild s mm2
    { s2 with children := modifyAt (s2.children.length - 1)
                (fun c => { c with modules := c.modules ++ [m] }) s2.children }

/-! ## The `VTKDataSource` model (sources/vtk_data_source.py)

The wrapped native dataset is modelled as an opaque record exposing, per
role (point/cell), an attribute table with one active-array slot per
attribute kind, and per (role, kind) a fixed list of candidate array names.
The reflection-style `'%s_%s_name'` trait dispatch of the source becomes
a `(Role, AttrKind)`-indexed getter/setter on six explicit fields. -/

/-- The attribute role: point data or cell data. -/
inductive Role where
  | point
  | cell
deriving DecidableEq, Repr

/-- The attribute kind: scalars, vectors or tensors. -/
inductive AttrKind where
  | scalars
  | vectors
  | tensors
deriving DecidableEq, Repr

/-- A native `DataSetAttributes` table (`data.point_data` /
`data.cell_data`): one active-array slot per kind.  `none` means the
attribute kind is deactivated (the `set_active_<kind>(None)` call). -/
structure AttrTable where
  activeScalars : Option String
  activeVectors : Option String
  activeTensors : Option String
deriving DecidableEq, Repr

/-- `set_active_<kind>(v)` on an attribute table. -/
def AttrTable.setActive (t : AttrTable) (k : AttrKind) (v : Option String) : AttrTable :=
  match k with
  | AttrKind.scalars => { t with activeScalars := v }
  | AttrKind.vectors => { t with activeVectors := v }
  | AttrKind.tensors => { t with activeTensors := v }

/-- Read the active-array slot of a kind. -/
def AttrTable.getActive (t : AttrTable) (k : AttrKind) : Option String :=
  match k with
  | AttrKind.scalars => t.activeScalars
  | AttrKind.vectors => t.activeVectors
  | AttrKind.tensors => t.activeTensors

/-- The candidate array names carried by a dataset, per (role, kind). -/
structure DataAttrs where
  pointScalars : List String
  pointVectors : List String
  pointTensors : List String
  cellScalars : List String
  cellVectors : List String
  cellTensors : List String
deriving DecidableEq, Repr

/-- Look up the candidate list of a (role, kind) pair. -/
def DataAttrs.get (a : DataAttrs) (r : Role) (k : AttrKind) : List String :=
  match r, k with
  | Role.point, AttrKind.scalars => a.pointScalars
  | Role.point, AttrKind.vectors => a.pointVectors
  | Role.point, AttrKind.tensors => a.pointTensors
  | Role.cell, AttrKind.scalars => a.cellScalars
  | Role.cell, AttrKind.vectors => a.cellVectors
  | Role.cell, AttrKind.tensors => a.cellTensors

/-- The wrapped native dataset (a `tvtk.DataSet`): an identity (for the
observer bookkeeping), a concrete type name, the candidate array names and
the two per-role attribute tables. -/
structure Dataset where
  id : Nat
  typeName : String
  attrs : DataAttrs
  pointData : AttrTable
  cellData : AttrTable
deriving DecidableEq, Repr

/-- The table of a role on a dataset. -/
def Dataset.tableAt (d : Dataset) (r : Role) : AttrTable :=
  match r with
  | Role.point => d.pointData
  | Role.cell => d.cellData

/-- `set_active_<kind>` on the table of a role. -/
def Dataset.setActiveAt (d : Dataset) (r : Role) (k : AttrKind) (v : Option String) :
    Dataset :=
  match r with
  | Role.point => { d with pointData := d.pointData.setActive k v }
  | Role.cell => { d with cellData := d.cellData.setActive k v }

/-- Modelled from the spec: `get_all_attributes` (vtk_xml_file_reader.py,
not under src/) queries the dataset for the candidate array names of each
(role, kind) pair. -/
def attrNames (d : Dataset) (r : Role) (k : AttrKind) : List String :=
  d.attrs.get r k

/-- One recorded `AssignAttribute.assign(name, kind, role)` call. -/
structure AssignCall where
  name : String
  kind : AttrKind
  role : Role
deriving DecidableEq, Repr

/-- The `tvtk.AssignAttribute` filter (`_assign_attribute`): its current
input (a dataset id), the history of `assign` calls and the number of
`update` calls. -/
structure AssignAttribute where
  input : Option Nat
  calls : List AssignCall
  updates : Nat
deriving DecidableEq, Repr

/-- `aa.assign(name, kind, role)`. -/
def AssignAttribute.assign (aa : AssignAttribute) (name : String) (k : AttrKind)
    (r : Role) : AssignAttribute :=
  { aa with calls := aa.calls ++ [{ name := name, kind := k, role := r }] }

/-- `aa.update()`. -/
def AssignAttribute.update (aa : AssignAttribute) : AssignAttribute :=
  { aa with updates := aa.updates + 1 }

/-- The six active-attribute selector values (`point_scalars_name`, ...,
`cell_tensors_name`). -/
structure SelNames where
  pointScalars : String
  pointVectors : String
  pointTensors : String
  cellScalars : String
  cellVectors : String
  cellTensors : String
deriving DecidableEq, Repr

/-- Read a selector value. -/
def SelNames.get (s : SelNames) (r : Role) (k : AttrKind) : String :=
  match r, k with
  | Role.point, AttrKind.scalars => s.pointScalars
  | Role.point, AttrKind.vectors => s.pointVectors
  | Role.point, AttrKind.tensors => s.pointTensors
  | Role.cell, AttrKind.scalars => s.cellScalars
  | Role.cell, AttrKind.vectors => s.cellVectors
  | Role.cell, AttrKind.tensors => s.cellTensors

/-- Write a selector value. -/
def SelNames.set (s : SelNames) (r : Role) (k : AttrKind) (v : String) : SelNames :=
  match r, k with
  | Role.point, AttrKind.scalars => { s with pointScalars := v }
  | Role.point, AttrKind.vectors => { s with pointVectors := v }
  | Role.point, AttrKind.tensors => { s with pointTensors := v }
  | Role.cell, AttrKind.scalars => { s with cellScalars := v }
  | Role.cell, AttrKind.vectors => { s with cellVectors := v }
  | Role.cell, AttrKind.tensors => { s with cellTensors := v }

/-- The six selector backing lists (`_point_scalars_list`, ...,
`_cell_tensors_list`). -/
structure SelLists where
  pointScalars : List String
  pointVectors : List String
  pointTensors : List String
  cellScalars : List String
  cellVectors : List String
  cellTensors : List String
deriving DecidableEq, Repr

/-- Read a backing list. -/
def SelLists.get (s : SelLists) (r : Role) (k : AttrKind) : List String :=
  match r, k with
  | Role.point, AttrKind.scalars => s.pointScalars
  | Role.point, AttrKind.vectors => s.pointVectors
  | Role.point, AttrKind.tensors => s.pointTensors
  | Role.cell, AttrKind.scalars => s.cellScalars
  | Role.cell, AttrKind.vectors => s.cellVectors
  | Role.cell, AttrKind.tensors => s.cellTensors

/-- Modelled from the spec: storing a candidate list in a selector's
backing list (data-refresh pass step (b)).  The `DEnum` trait machinery
(core/traits.py) is not under src/; per the spec's step-by-step refresh
description, storing the backing list is a plain assignment. -/
def SelLists.set (s : SelLists) (r : Role) (k : AttrKind) (v : List String) : SelLists :=
  match r, k with
  | Role.point, AttrKind.scalars => { s with pointScalars := v }
  | Role.point, AttrKind.vectors => { s with pointVectors := v }
  | Role.point, AttrKind.tensors => { s with pointTensors := v }
  | Role.cell, AttrKind.scalars => { s with cellScalars := v }
  | Role.cell, AttrKind.vectors => { s with cellVectors := v }
  | Role.cell, AttrKind.tensors => { s with cellTensors := v }

/-- A native ModifiedEvent observer event, for the subscription trace. -/
inductive ObsEvent where
  | removedObs (dsId : Nat) (obsId : Int)
  | addedObs (dsId : Nat) (obsId : Int)
deriving DecidableEq, Repr

/-- The native observer registry: the active `(dataset id, observer id)`
subscriptions, the next fresh observer id, and the trace of
subscribe/unsubscribe events in order. -/
structure World where
  observers : List (Nat × Int)
  nextId : Int
  trace : List ObsEvent
deriving DecidableEq, Repr

/-- `old.remove_observer(observer_id)`. -/
def World.removeObserver (w : World) (dsId : Nat) (obsId : Int) : World :=
  { w with observers := w.observers.filter (fun p => !(p.1 == dsId && p.2 == obsId)),
           trace := w.trace ++ [ObsEvent.removedObs dsId obsId] }

/-- `new.add_observer('ModifiedEvent', messenger.send)`: returns the fresh
observer id. -/
def World.addObserver (w : World) (dsId : Nat) : Int × World :=
  (w.nextId,
   { w with observers := w.observers ++ [(dsId, w.nextId)],
            nextId := w.nextId + 1,
            trace := w.trace ++ [ObsEvent.addedObs dsId w.nextId] })

/-- The `VTKDataSource` state: the managed dataset, the six selectors and
their backing lists, the `_assign_attribute` filter, the `_first` flag, the
`_observer_id`, the number of `data_changed` firings, the published
`outputs`, the display `name`, and the restored child records (opaque). -/
structure VTKDataSource where
  data : Option Dataset
  sel : SelNames
  lists : SelLists
  aa : AssignAttribute
  first : Bool
  observerId : Int
  dataChangedCount : Nat
  outputs : List Unit
  name : String
  childrenR : List Nat
deriving DecidableEq, Repr

/-- `VTKDataSource._set_data_name(data_type, attr_type, value)`
(vtk_data_source.py lines 201–225): `None` returns immediately; an empty
string deactivates that attribute kind on the role's table and fires
`data_changed`; otherwise the name is activated on the role's table,
assigned and updated through the `AssignAttribute`, and `data_changed`
fires.  `none` as a result models the exception raised when `self.data` is
`None` in the non-`None`-value branches. -/
def setDataName (s : VTKDataSource) (dType : AttrKind) (aType : Role)
    (value : Option String) : Option VTKDataSource :=
  match value with
  | none => some s
  | some v =>
    match s.data with
    | none => none
    | some dataset =>
      if v = "" then
        some { s with data := some (dataset.setActiveAt aType dType none),
                      dataChangedCount := s.dataChangedCount + 1 }
      else
        some { s with data := some (dataset.setActiveAt aType dType (some v)),
                      aa := (s.aa.assign v dType aType).update,
                      dataChangedCount := s.dataChangedCount + 1 }

/-- One (role, kind) step of the `_setup_data_traits` inner loop of
`VTKDataSource._update_data` (vtk_data_source.py lines 250–272): append the
empty-string sentinel to the discovered names, store the backing list; if a
real candidate exists, take the current selector value as default (on the
very first pass an empty default becomes the first candidate), activate it
on the role's table, assign and update through the `AssignAttribute`, and
store it back in the selector without firing its change notification. -/
def setupAttr (r : Role) (k : AttrKind) (s : VTKDataSource) : VTKDataSource :=
  match s.data with
  | none => s
  | some d =>
    let values := attrNames d r k ++ [""]
    let s1 := { s with lists := s.lists.set r k values }
    if values.length > 1 then
      let dflt := s1.sel.get r k
      let dflt := if s1.first ∧ dflt = "" then values.headD "" else dflt
      { s1 with data := some (d.setActiveAt r k (some dflt)),
                aa := (s1.aa.assign dflt k r).update,
                sel := s1.sel.set r k dflt }
    else s1

/-- The (role, kind) pairs in the order `_update_data` visits them:
`_setup_data_traits(self, pnt_attr, 'point')` iterating scalars, vectors,
tensors, then the same for `'cell'`. -/
def rkOrder : List (Role × AttrKind) :=
  [(Role.point, AttrKind.scalars), (Role.point, AttrKind.vectors),
   (Role.point, AttrKind.tensors), (Role.cell, AttrKind.scalars),
   (Role.cell, AttrKind.vectors), (Role.cell, AttrKind.tensors)]

/-- Run `setupAttr` over a list of (role, kind) pairs in order. -/
def setupAll (L : List (Role × AttrKind)) (s : VTKDataSource) : VTKDataSource :=
  L.foldl (fun t rk => setupAttr rk.1 rk.2 t) s

/-- `VTKDataSource._update_data` (vtk_data_source.py lines 245–279): return
if there is no dataset; otherwise run the six (role, kind) setup steps —
point scalars/vectors/tensors, then cell scalars/vectors/tensors — then
clear the `_first` flag and fire `data_changed`. -/
def updateData (s : VTKDataSource) : VTKDataSource :=
  match s.data with
  | none => s
  | some _ =>
    let s6 := setupAll rkOrder s
    let s7 := if s6.first then { s6 with first := false } else s6
    { s7 with dataChangedCount := s7.dataChangedCount + 1 }

/-- Whether a character list occurs inside another. -/
def hasSubList (needle hay : List Char) : Bool :=
  match hay with
  | [] => needle.isEmpty
  | _ :: t => needle.isPrefixOf hay || hasSubList needle t

/-- `'[Hidden]' in self.name`. -/
def hasHidden (s : String) : Bool :=
  hasSubList "[Hidden]".toList s.toList

/-- `VTKDataSource._get_name` (vtk_data_source.py lines 281–290). -/
def getName (s : VTKDataSource) : String :=
  let ret :=
    match s.data with
    | none => "VTK Data (uninitialized)"
    | some d => "VTK Data (" ++ d.typeName ++ ")"
  if hasHidden s.name then ret ++ " [Hidden]" else ret

/-- `VTKDataSource._data_changed(old, new)` (vtk_data_source.py lines
175–195): rewire the `AssignAttribute` input, run the data-refresh pass,
publish the outputs, fire `data_changed`; then remove the old dataset's
observer (when an old dataset existed) before adding one on the new
dataset; finally recompute the display name. -/
def dataChangedHook (s : VTKDataSource) (w : World) (old : Option Dataset)
    (new : Dataset) : VTKDataSource × World :=
  let s1 := { s with aa := { s.aa with input := some new.id } }
  let s2 := updateData s1
  let s3 := { s2 with outputs := [()], dataChangedCount := s2.dataChangedCount + 1 }
  let w1 :=
    match old with
    | some o => w.removeObserver o.id s3.observerId
    | none => w
  let r := w1.addObserver new.id
  let s4 := { s3 with observerId := r.1 }
  ({ s4 with name := getName s4 }, r.2)

/-- `self.data = d` on a `VTKDataSource`: store the new dataset and fire
the `_data_changed` trait hook with the old and new values. -/
def assignData (s : VTKDataSource) (w : World) (d : Dataset) : VTKDataSource × World :=
  let old := s.data
  dataChangedHook { s with data := some d } w old d

/-- Fold a sequence of dataset assignments. -/
def assignAll (sw : VTKDataSource × World) (ds : List Dataset) : VTKDataSource × World :=
  match ds with
  | [] => sw
  | d :: rest => assignAll (assignData sw.1 sw.2 d) rest

/-- A `VTKDataSource` as freshly constructed: no dataset, empty selectors,
`_first` true, `_observer_id = -1`. -/
def initialSource : VTKDataSource :=
  { data := none,
    sel := { pointScalars := "", pointVectors := "", pointTensors := "",
             cellScalars := "", cellVectors := "", cellTensors := "" },
    lists := { pointScalars := [""], pointVectors := [""], pointTensors := [""],
               cellScalars := [""], cellVectors := [""], cellTensors := [""] },
    aa := { input := none, calls := [], updates := 0 },
    first := true, observerId := -1, dataChangedCount := 0,
    outputs := [], name := "", childrenR := [] }

/-- A native observer registry with no subscriptions. -/
def initialWorld : World :=
  { observers := [], nextId := 0, trace := [] }

/-- The phases of `VTKDataSource.__set_pure_state__`, in execution order:
assigning the restored dataset to `data`, restoring the remaining scalar
(non-collection) state, restoring the children. -/
inductive RestorePhase where
  | dataPhase
  | scalarPhase
  | childPhase
deriving DecidableEq, Repr

/-- A persisted `VTKDataSource` record: the parsed dataset (the gunzip +
`DataSetReader` round trip of the stored byte string is the external tvtk
layer; the record carries its result), the scalar state (represented by the
display name) and the child records. -/
structure PureState where
  data : Option Dataset
  name : String
  children : List Nat
deriving DecidableEq, Repr

/-- `VTKDataSource.__set_pure_state__` (vtk_data_source.py lines 130–143):
when the record holds a dataset, parse it and assign it to `self.data`
(firing the full `_data_changed` hook); then restore the remaining
non-child state (`set_state` with children and data ignored); then restore
the children.  Returns the final state together with the phase trace in
execution order. -/
def setPureState (s : VTKDataSource) (w : World) (st : PureState) :
    VTKDataSource × World × List RestorePhase :=
  match st.data with
  | some d =>
    let r := assignData s w d
    let s2 := { r.1 with name := st.name }
    let s3 := { s2 with childrenR := st.children }
    (s3, r.2, [RestorePhase.dataPhase, RestorePhase.scalarPhase, RestorePhase.childPhase])
  | none =>
    let s2 := { s with name := st.name }
    let s3 := { s2 with childrenR := st.children }
    (s3, w, [RestorePhase.scalarPhase, RestorePhase.childPhase])

/-! ## Concrete example inputs -/

/-- The `isinstance(child, ModuleManager)` test. -/
def isMM (c : Child) : Bool :=
  c.kind == ChildKind.moduleManager

/-- A quiescent child used in the concrete examples. -/
def exChildOk : Child :=
  { kind := ChildKind.other, running := false, startFails := false,
    stopFails := false, scene := none, source := none, inputs := [], modules := [] }

/-- A child whose `start()` raises. -/
def exChildBadStart : Child :=
  { exChildOk with startFails := true }

/-- A running child whose `stop()` raises. -/
def exChildBadStop : Child :=
  { exChildOk with running := true, stopFails := true }

/-- A non-running node with a failing-start child before a healthy one. -/
def exSourceA : SourceState :=
  { running := false, children := [exChildBadStart, exChildOk], scene := none,
    id := 0, logged := 0 }

/-- A running node with one healthy running child. -/
def exSourceB : SourceState :=
  { running := true, children := [{ exChildOk with running := true }], scene := none,
    id := 1, logged := 0 }

/-- A running node with a healthy running child before a failing-stop one. -/
def exSourceC : SourceState :=
  { running := true,
    children := [{ exChildOk with running := true }, exChildBadStop],
    scene := none, id := 2, logged := 0 }

/-- Exactly one native modification subscription is active, and it is on
the current dataset: the subscription invariant of a
`VTKDataSource`/registry pair. -/
def oneSub (sw : VTKDataSource × World) : Prop :=
  ∃ d2, sw.1.data = some d2 ∧ sw.2.observers = [(d2.id, sw.1.observerId)]

/-- A dataset with no data arrays at all (id 5). -/
def exDatasetA : Dataset :=
  { id := 5, typeName := "PolyData",
    attrs := { pointScalars := [], pointVectors := [], pointTensors := [],
               cellScalars := [], cellVectors := [], cellTensors := [] },
    pointData := { activeScalars := none, activeVectors := none, activeTensors := none },
    cellData := { activeScalars := none, activeVectors := none, activeTensors := none } }

/-- A second dataset (id 7) carrying two point scalar arrays. -/
def exDatasetB : Dataset :=
  { exDatasetA with
    id := 7, typeName := "ImageData",
    attrs := { pointScalars := ["temperature", "pressure"], pointVectors := [],
               pointTensors := [], cellScalars := [], cellVectors := [],
               cellTensors := [] } }

/-- The state of a fresh `VTKDataSource` after its first dataset
assignment (of `exDatasetA`). -/
def exAssignedA : VTKDataSource × World :=
  assignData initialSource initialWorld exDatasetA

/-- A dataset (id 9) with point scalar arrays but no cell arrays, whose
cell scalars attribute is nevertheless active (set externally). -/
def exDatasetC : Dataset :=
  { exDatasetB with
    id := 9,
    cellData := { activeScalars := some "voltage", activeVectors := none,
                  activeTensors := none } }

/-- A `VTKDataSource` past its first refresh pass, holding `exDatasetC`
with explicit selections. -/
def exSourceVTK : VTKDataSource :=
  { initialSource with
    data := some exDatasetC, first := false,
    sel := { pointScalars := "temperature", pointVectors := "", pointTensors := "",
             cellScalars := "voltage", cellVectors := "", cellTensors := "" } }

/-- A persisted record holding a dataset, a name and two children. -/
def exPureState : PureState :=
  { data := some exDatasetA, name := "restored", children := [3, 4] }

/-! ## Lemmas about the `Source` lifecycle -/

lemma startCaught_snd (c : Child) : (startCaught c).2 = childStartFails c := by
  unfold startCaught childStart childStartFails
  rcases hr : c.running <;> rcases hf : c.startFails <;> simp [hr, hf]

lemma startCaught_of_ok (c : Child) (h : c.startFails = false) :
    (startCaught c).1 = { c with running := true } := by
  unfold startCaught childStart
  rcases hr : c.running <;> simp [hr, h]
  cases c
  simp_all

lemma startChildren_fst (cs : List Child) :
    (startChildren cs).1 = cs.map (fun c => (startCaught c).1) := by
  induction cs with
  | nil => rfl
  | cons c rest ih => simp [startChildren, ih]

lemma startChildren_snd (cs : List Child) :
    (startChildren cs).2 = (cs.filter childStartFails).length := by
  induction cs with
  | nil => rfl
  | cons c rest ih =>
    simp only [startChildren, ih, List.filter_cons]
    rw [← startCaught_snd]
    rcases h : (startCaught c).2 <;> simp [h, Nat.add_comm]

lemma childStop_of_ok (c : Child) (h : childStopFails c = false) :
    childStop c = Except.ok (childStopOk c) := by
  unfold childStop childStopOk
  unfold childStopFails at h
  rcases hr : c.running <;> simp [hr] at h ⊢ <;> simp [h]

lemma childStop_of_fail (c : Child) (h : childStopFails c = true) :
    childStop c = Except.error () := by
  unfold childStop
  unfold childStopFails at h
  simp only [Bool.and_eq_true] at h
  simp [h.1, h.2]

lemma stopChildren_of_all_ok (cs : List Child)
    (h : ∀ c ∈ cs, childStopFails c = false) :
    stopChildren cs = Except.ok (cs.map childStopOk) := by
  induction cs with
  | nil => rfl
  | cons c rest ih =>
    have hc := h c (by simp)
    have hr : ∀ x ∈ rest, childStopFails x = false := fun x hx => h x (by simp [hx])
    simp [stopChildren, childStop_of_ok c hc, ih hr]

lemma stopChildren_of_fail (p : List Child) (c : Child) (q : List Child)
    (hp : ∀ x ∈ p, childStopFails x = false) (hc : childStopFails c = true) :
    stopChildren (p ++ c :: q) = Except.error (p.map childStopOk ++ c :: q) := by
  induction p with
  | nil => simp [stopChildren, childStop_of_fail c hc]
  | cons x rest ih =>
    have hx := hp x (by simp)
    have hr : ∀ y ∈ rest, childStopFails y = false := fun y hy => hp y (by simp [hy])
    simp [stopChildren, childStop_of_ok x hx, ih hr]

/-! ## Claims C1, C5, C6, C7 -/

/-- C1: for every `Source` node that is not running, `start()` attempts to
start each child in order; a per-child exception is caught and logged, not
propagated, does not prevent any subsequent child from being started, and
does not prevent the node itself from being marked running afterwards. -/
theorem source_start_catches_child_failures (s : SourceState) (h : s.running = false) :
    (sourceStart s).running = true ∧
    (sourceStart s).children = s.children.map (fun c => (startCaught c).1) ∧
    (sourceStart s).logged = s.logged + (s.children.filter childStartFails).length ∧
    (∀ (i : Nat) (c : Child), s.children[i]? = some c → c.startFails = false →
      (sourceStart s).children[i]? = some { c with running := true }) := by
  unfold sourceStart
  simp only [h, Bool.false_eq_true, if_false]
  refine ⟨by trivial, startChildren_fst s.children, by rw [startChildren_snd], ?_⟩
  intro i c hi hc
  simp only [startChildren_fst, List.getElem?_map, hi]
  simp [startCaught_of_ok c hc]

theorem source_start_catches_child_failures_witness :
    exSourceA.running = false ∧ (sourceStart exSourceA).running = true ∧
      (sourceStart exSourceA).children[1]? = some { exChildOk with running := true } :=
  ⟨rfl, (source_start_catches_child_failures exSourceA rfl).1,
   (source_start_catches_child_failures exSourceA rfl).2.2.2 1 exChildOk rfl rfl⟩

/-- C5: `start()` and `stop()` are idempotent: a second consecutive call is
a no-op, and each is a no-op when the node is already in the corresponding
running state. -/
theorem source_start_stop_idempotent :
    (∀ s : SourceState, sourceStart (sourceStart s) = sourceStart s) ∧
    (∀ s : SourceState, s.running = true → sourceStart s = s) ∧
    (∀ s s2 : SourceState, sourceStop s = Except.ok s2 → sourceStop s2 = Except.ok s2) ∧
    (∀ s : SourceState, s.running = false → sourceStop s = Except.ok s) := by
  have hstart : ∀ s : SourceState, s.running = true → sourceStart s = s := by
    intro s hs; simp [sourceStart, hs]
  have hstop : ∀ s : SourceState, s.running = false → sourceStop s = Except.ok s := by
    intro s hs; simp [sourceStop, hs]
  refine ⟨?_, hstart, ?_, hstop⟩
  · intro s
    rcases hs : s.running with _ | _
    · apply hstart
      simp [sourceStart, hs]
    · rw [hstart s hs]
      exact hstart s hs
  · intro s s2 hok
    unfold sourceStop at hok
    rcases hs : s.running with _ | _
    · simp only [hs, Bool.not_false, if_true, Except.ok.injEq] at hok
      rw [← hok]
      exact hstop s hs
    · simp only [hs, Bool.not_true, Bool.false_eq_true, if_false] at hok
      rcases hsc : stopChildren s.children with cs | cs <;> rw [hsc] at hok
      · cases hok
      · simp only [Except.ok.injEq] at hok
        rw [← hok]
        exact hstop _ rfl

theorem source_start_stop_idempotent_witness :
    sourceStart exSourceB = exSourceB ∧
      sourceStop (sourceStart (sourceStart exSourceA)) =
        sourceStop (sourceStart exSourceA) ∧
      sourceStop { exSourceB with running := false } = Except.ok { exSourceB with running := false } :=
  ⟨source_start_stop_idempotent.2.1 exSourceB rfl,
   by rw [source_start_stop_idempotent.1 exSourceA],
   source_start_stop_idempotent.2.2.2 { exSourceB with running := false } rfl⟩

/-- C6: for a running node, `stop()` stops each child in order without
catching exceptions: when all children stop cleanly the node ends not
running with every child stopped; a raising child propagates the exception
with the prefix stopped and the node still marked running. -/
theorem source_stop_propagates (s : SourceState) (h : s.running = true) :
    ((∀ c ∈ s.children, childStopFails c = false) →
       sourceStop s = Except.ok { s with children := s.children.map childStopOk,
                                         running := false }) ∧
    (∀ e, sourceStop s = Except.error e → e.running = true) ∧
    (∀ p c q, s.children = p ++ c :: q → (∀ x ∈ p, childStopFails x = false) →
       childStopFails c = true →
       sourceStop s = Except.error { s with children := p.map childStopOk ++ c :: q }) := by
  refine ⟨?_, ?_, ?_⟩
  · intro hall
    simp [sourceStop, h, stopChildren_of_all_ok s.children hall]
  · intro e he
    unfold sourceStop at he
    simp only [h, Bool.not_true, Bool.false_eq_true, if_false] at he
    rcases hsc : stopChildren s.children with cs | cs <;> rw [hsc] at he
    · simp only [Except.error.injEq] at he
      rw [← he]
    · cases he
  · intro p c q hdec hp hc
    simp [sourceStop, h, hdec, stopChildren_of_fail p c q hp hc]

theorem source_stop_propagates_witness :
    exSourceC.running = true ∧
      sourceStop exSourceC =
        Except.error { exSourceC with
          children := [exChildOk, exChildBadStop] } :=
  ⟨rfl,
   by
    have := (source_stop_propagates exSourceC rfl).2.2
      [{ exChildOk with running := true }] exChildBadStop [] rfl
      (by intro x hx; simp at hx; subst hx; rfl) rfl
    simpa [childStopOk, exChildOk] using this⟩

/-- C7: the structural-change hook stops every removed child, regardless of
whether the parent is running: with cleanly-stopping removed children the
hook returns each of them passed through `stop()`, each ending not
running. -/
theorem handle_children_stops_removed (running : Bool) (scene : Option Nat)
    (selfId : Nat) (removed added : List Child)
    (h : ∀ c ∈ removed, childStopFails c = false) :
    handleChildren running scene selfId removed added =
      Except.ok (removed.map childStopOk,
                 (processAddedAll running scene selfId added).1,
                 (processAddedAll running scene selfId added).2) ∧
    ∀ c ∈ removed, (childStopOk c).running = false := by
  constructor
  · simp [handleChildren, stopChildren_of_all_ok removed h]
  · intro c _
    unfold childStopOk
    rcases hr : c.running <;> simp [hr]

theorem handle_children_stops_removed_witness :
    handleChildren false none 5 [{ exChildOk with running := true }] [] =
      Except.ok ([exChildOk], [], 0) ∧
      (childStopOk { exChildOk with running := true }).running = false :=
  ⟨by
    have := (handle_children_stops_removed false none 5
      [{ exChildOk with running := true }] []
      (by intro c hc; simp at hc; subst hc; rfl)).1
    simpa [childStopOk, exChildOk, processAddedAll] using this,
   (handle_children_stops_removed false none 5 [{ exChildOk with running := true }] []
      (by intro c hc; simp at hc; subst hc; rfl)).2
      { exChildOk with running := true } (by simp)⟩

/-! ## Claim C8: `add_module` -/

lemma lastMMIdx_of_none (cs : List Child) (h : ∀ c ∈ cs, isMM c = false) :
    lastMMIdx cs = none := by
  induction cs with
  | nil => rfl
  | cons c rest ih =>
    have hc := h c (by simp)
    have hr : ∀ x ∈ rest, isMM x = false := fun x hx => h x (by simp [hx])
    unfold lastMMIdx
    rw [ih hr]
    have hc2 : ¬c.kind = ChildKind.moduleManager := by simpa [isMM] using hc
    simp only [hc2, if_false]

lemma lastMMIdx_append_mm (pre : List Child) (mm : Child)
    (hpre : ∀ c ∈ pre, isMM c = false) (hmm : isMM mm = true) :
    lastMMIdx (pre ++ [mm]) = some pre.length := by
  induction pre with
  | nil =>
    simp only [isMM, beq_iff_eq] at hmm
    simp [lastMMIdx, hmm]
  | cons c rest ih =>
    have hr : ∀ x ∈ rest, isMM x = false := fun x hx => hpre x (by simp [hx])
    simp only [List.cons_append, lastMMIdx, List.append_eq, ih hr, List.length_cons]

lemma modifyAt_append (pre : List Child) (mm : Child) (f : Child → Child) :
    modifyAt pre.length f (pre ++ [mm]) = pre ++ [f mm] := by
  induction pre with
  | nil => rfl
  | cons c rest ih => simp [modifyAt, ih]

lemma addModule_fresh (s : SourceState) (h : ∀ c ∈ s.children, isMM c = false)
    (m : Nat) :
    addModule s m =
      { s with children := s.children ++
          [{ newMM s with running := s.running, modules := [m] }] } := by
  have hmm2 : (if s.running then (startCaught (newMM s)).1 else newMM s) =
      { newMM s with running := s.running } := by
    rcases hr : s.running <;> simp [hr, startCaught, childStart, newMM]
  have happ : appendChild s { newMM s with running := s.running } =
      { s with children := s.children ++ [{ newMM s with running := s.running }] } := by
    unfold appendChild processAdded
    rcases hr : s.running <;> simp [hr, newMM, startCaught, childStart]
  have hlen : (s.children ++ [{ newMM s with running := s.running }]).length - 1 =
      s.children.length := by
    simp
  unfold addModule
  rw [lastMMIdx_of_none s.children h]
  dsimp only
  rw [hmm2, happ]
  dsimp only
  rw [hlen, modifyAt_append]
  simp [newMM]

lemma addModule_existing (s : SourceState) (pre : List Child) (mm : Child)
    (hc : s.children = pre ++ [mm]) (hpre : ∀ c ∈ pre, isMM c = false)
    (hmm : isMM mm = true) (m : Nat) :
    addModule s m =
      { s with children := pre ++ [{ mm with modules := mm.modules ++ [m] }] } := by
  unfold addModule
  rw [hc, lastMMIdx_append_mm pre mm hpre hmm]
  dsimp only
  rw [modifyAt_append]

lemma foldl_addModule_existing (ms : List Nat) (s : SourceState) (pre : List Child)
    (mm : Child) (hc : s.children = pre ++ [mm])
    (hpre : ∀ c ∈ pre, isMM c = false) (hmm : isMM mm = true) :
    ms.foldl addModule s =
      { s with children := pre ++ [{ mm with modules := mm.modules ++ ms }] } := by
  induction ms generalizing s mm with
  | nil =>
    simp only [List.foldl_nil, List.append_nil]
    have hmm2 : ({ mm with modules := mm.modules } : Child) = mm := rfl
    rw [hmm2, ← hc]
  | cons m rest ih =>
    simp only [List.foldl_cons]
    rw [addModule_existing s pre mm hc hpre hmm m]
    rw [ih _ { mm with modules := mm.modules ++ [m] } rfl (by exact hmm)]
    simp

/-- C8: on a node with zero `ModuleManager` children, `add_module` called
once per module of a nonempty list results in exactly one `ModuleManager`
child owning all the modules in call order, appended after the existing
children; the node's running state is unchanged and the manager is running
iff the node is running. -/
theorem add_module_single_manager (s : SourceState)
    (h : ∀ c ∈ s.children, isMM c = false) (p : List Nat) (hp : p ≠ []) :
    (p.foldl addModule s).children =
      s.children ++ [{ newMM s with running := s.running, modules := p }] ∧
    (p.foldl addModule s).children.filter isMM =
      [{ newMM s with running := s.running, modules := p }] ∧
    (p.foldl addModule s).running = s.running := by
  rcases p with _ | ⟨m, rest⟩
  · exact absurd rfl hp
  · have h1 := addModule_fresh s h m
    have h2 := foldl_addModule_existing rest (addModule s m) s.children
      { newMM s with running := s.running, modules := [m] }
      (by rw [h1]) h (by simp [isMM, newMM])
    have hch : (List.foldl addModule s (m :: rest)).children =
        s.children ++ [{ newMM s with running := s.running, modules := m :: rest }] := by
      simp only [List.foldl_cons]
      rw [h2]
      simp
    refine ⟨hch, ?_, ?_⟩
    · rw [hch]
      rw [List.filter_append]
      rw [List.filter_eq_nil.2 (by intro c hcm; simp [h c hcm])]
      simp [isMM, newMM]
    · simp only [List.foldl_cons]
      rw [h2, h1]

theorem add_module_single_manager_witness :
    ([10, 11].foldl addModule exSourceA).children.filter isMM =
      [{ newMM exSourceA with running := false, modules := [10, 11] }] :=
  (add_module_single_manager exSourceA
    (by intro c hc; simp [exSourceA] at hc
        rcases hc with hc | hc <;> subst hc <;> rfl)
    [10, 11] (by simp)).2.1

/-! ## Lemmas about the `VTKDataSource` selectors and tables -/

lemma selNames_get_set_self (s : SelNames) (r : Role) (k : AttrKind) (v : String) :
    (s.set r k v).get r k = v := by
  cases r <;> cases k <;> rfl

lemma selNames_get_set_ne (s : SelNames) (r2 : Role) (k2 : AttrKind) (v : String)
    (r : Role) (k : AttrKind) (h : ¬(r2 = r ∧ k2 = k)) :
    (s.set r2 k2 v).get r k = s.get r k := by
  cases r2 <;> cases k2 <;> cases r <;> cases k <;>
    simp_all [SelNames.set, SelNames.get]

lemma selLists_get_set_self (s : SelLists) (r : Role) (k : AttrKind) (v : List String) :
    (s.set r k v).get r k = v := by
  cases r <;> cases k <;> rfl

lemma selLists_get_set_ne (s : SelLists) (r2 : Role) (k2 : AttrKind) (v : List String)
    (r : Role) (k : AttrKind) (h : ¬(r2 = r ∧ k2 = k)) :
    (s.set r2 k2 v).get r k = s.get r k := by
  cases r2 <;> cases k2 <;> cases r <;> cases k <;>
    simp_all [SelLists.set, SelLists.get]

lemma Dataset.getActive_setActiveAt_self (d : Dataset) (r : Role) (k : AttrKind)
    (v : Option String) :
    ((d.setActiveAt r k v).tableAt r).getActive k = v := by
  cases r <;> cases k <;> rfl

lemma Dataset.getActive_setActiveAt_ne (d : Dataset) (r2 : Role) (k2 : AttrKind)
    (v : Option String) (r : Role) (k : AttrKind) (h : ¬(r2 = r ∧ k2 = k)) :
    ((d.setActiveAt r2 k2 v).tableAt r).getActive k = (d.tableAt r).getActive k := by
  cases r2 <;> cases k2 <;> cases r <;> cases k <;>
    simp_all [Dataset.setActiveAt, Dataset.tableAt, AttrTable.setActive, AttrTable.getActive]

lemma Dataset.setActiveAt_attrs (d : Dataset) (r : Role) (k : AttrKind) (v : Option String) :
    (d.setActiveAt r k v).attrs = d.attrs := by
  cases r <;> rfl

lemma Dataset.setActiveAt_id (d : Dataset) (r : Role) (k : AttrKind) (v : Option String) :
    (d.setActiveAt r k v).id = d.id := by
  cases r <;> rfl

lemma attrNames_congr (d2 d : Dataset) (h : d2.attrs = d.attrs) (r : Role) (k : AttrKind) :
    attrNames d2 r k = attrNames d r k := by
  unfold attrNames
  rw [h]

lemma headD_append_sentinel (l : List String) (h : l ≠ []) :
    (l ++ [""]).headD "" = l.headD "" := by
  cases l with
  | nil => exact absurd rfl h
  | cons a t => rfl

/-! ## Lemmas about `setupAttr` and `updateData` -/

lemma setupAttr_sentinel (r : Role) (k : AttrKind) (s : VTKDataSource) (d : Dataset)
    (hd : s.data = some d) (he : attrNames d r k = []) :
    setupAttr r k s = { s with lists := s.lists.set r k [""] } := by
  unfold setupAttr
  rw [hd]
  dsimp only
  rw [he]
  simp

lemma setupAttr_of_names (r : Role) (k : AttrKind) (s : VTKDataSource) (d : Dataset)
    (hd : s.data = some d) (he : attrNames d r k ≠ []) :
    setupAttr r k s =
      { s with lists := s.lists.set r k (attrNames d r k ++ [""]),
               data := some (d.setActiveAt r k
                 (some (if s.first ∧ s.sel.get r k = "" then (attrNames d r k).headD ""
                        else s.sel.get r k))),
               aa := (s.aa.assign
                 (if s.first ∧ s.sel.get r k = "" then (attrNames d r k).headD ""
                  else s.sel.get r k) k r).update,
               sel := s.sel.set r k
                 (if s.first ∧ s.sel.get r k = "" then (attrNames d r k).headD ""
                  else s.sel.get r k) } := by
  unfold setupAttr
  rw [hd]
  dsimp only
  have hlen : (attrNames d r k ++ [""]).length > 1 := by
    have : attrNames d r k ≠ [] := he
    have hpos : 0 < (attrNames d r k).length := List.length_pos.2 this
    simp only [List.length_append, List.length_cons, List.length_nil]
    omega
  rw [if_pos hlen, headD_append_sentinel (attrNames d r k) he]

lemma setupAttr_first (r : Role) (k : AttrKind) (s : VTKDataSource) :
    (setupAttr r k s).first = s.first := by
  unfold setupAttr
  rcases hd : s.data with _ | d
  · rfl
  · dsimp only
    split <;> rfl

lemma setupAttr_observerId (r : Role) (k : AttrKind) (s : VTKDataSource) :
    (setupAttr r k s).observerId = s.observerId := by
  unfold setupAttr
  rcases hd : s.data with _ | d
  · rfl
  · dsimp only
    split <;> rfl

lemma setupAttr_data_some (r : Role) (k : AttrKind) (s : VTKDataSource) (d : Dataset)
    (hd : s.data = some d) :
    ∃ d2, (setupAttr r k s).data = some d2 ∧ d2.attrs = d.attrs ∧ d2.id = d.id := by
  by_cases he : attrNames d r k = []
  · exact ⟨d, by rw [setupAttr_sentinel r k s d hd he]; exact hd, rfl, rfl⟩
  · refine ⟨_, by rw [setupAttr_of_names r k s d hd he], ?_, ?_⟩
    · exact Dataset.setActiveAt_attrs d r k _
    · exact Dataset.setActiveAt_id d r k _

lemma setupAttr_frame (r2 : Role) (k2 : AttrKind) (r : Role) (k : AttrKind)
    (h : ¬(r2 = r ∧ k2 = k)) (s : VTKDataSource) (d : Dataset) (hd : s.data = some d) :
    (setupAttr r2 k2 s).sel.get r k = s.sel.get r k ∧
    (setupAttr r2 k2 s).lists.get r k = s.lists.get r k ∧
    ∃ d2, (setupAttr r2 k2 s).data = some d2 ∧ d2.attrs = d.attrs ∧ d2.id = d.id ∧
      (d2.tableAt r).getActive k = (d.tableAt r).getActive k := by
  by_cases he : attrNames d r2 k2 = []
  · rw [setupAttr_sentinel r2 k2 s d hd he]
    exact ⟨rfl, selLists_get_set_ne s.lists r2 k2 [""] r k h, d, hd, rfl, rfl, rfl⟩
  · rw [setupAttr_of_names r2 k2 s d hd he]
    refine ⟨selNames_get_set_ne s.sel r2 k2 _ r k h,
            selLists_get_set_ne s.lists r2 k2 _ r k h, _, rfl,
            Dataset.setActiveAt_attrs d r2 k2 _, Dataset.setActiveAt_id d r2 k2 _,
            Dataset.getActive_setActiveAt_ne d r2 k2 _ r k h⟩

lemma setupAll_frame (L : List (Role × AttrKind)) (r : Role) (k : AttrKind)
    (hL : ∀ rk ∈ L, ¬(rk.1 = r ∧ rk.2 = k)) (s : VTKDataSource) (d : Dataset)
    (hd : s.data = some d) :
    (setupAll L s).sel.get r k = s.sel.get r k ∧
    (setupAll L s).lists.get r k = s.lists.get r k ∧
    (setupAll L s).first = s.first ∧
    ∃ d2, (setupAll L s).data = some d2 ∧ d2.attrs = d.attrs ∧ d2.id = d.id ∧
      (d2.tableAt r).getActive k = (d.tableAt r).getActive k := by
  induction L generalizing s d with
  | nil => exact ⟨rfl, rfl, rfl, d, hd, rfl, rfl, rfl⟩
  | cons rk rest ih =>
    have hrk := hL rk (by simp)
    have hrest : ∀ x ∈ rest, ¬(x.1 = r ∧ x.2 = k) := fun x hx => hL x (by simp [hx])
    obtain ⟨hsel, hlists, d2, hd2, hattrs, hid, hact⟩ :=
      setupAttr_frame rk.1 rk.2 r k hrk s d hd
    obtain ⟨hsel2, hlists2, hfirst2, d3, hd3, hattrs3, hid3, hact3⟩ :=
      ih hrest (setupAttr rk.1 rk.2 s) d2 hd2
    refine ⟨?_, ?_, ?_, d3, hd3, ?_, ?_, ?_⟩
    · rw [show setupAll (rk :: rest) s = setupAll rest (setupAttr rk.1 rk.2 s) from rfl,
        hsel2, hsel]
    · rw [show setupAll (rk :: rest) s = setupAll rest (setupAttr rk.1 rk.2 s) from rfl,
        hlists2, hlists]
    · rw [show setupAll (rk :: rest) s = setupAll rest (setupAttr rk.1 rk.2 s) from rfl,
        hfirst2, setupAttr_first]
    · rw [hattrs3, hattrs]
    · rw [hid3, hid]
    · rw [hact3, hact]

lemma setupAll_first (L : List (Role × AttrKind)) (s : VTKDataSource) :
    (setupAll L s).first = s.first := by
  induction L generalizing s with
  | nil => rfl
  | cons rk rest ih =>
    rw [show setupAll (rk :: rest) s = setupAll rest (setupAttr rk.1 rk.2 s) from rfl,
      ih, setupAttr_first]

lemma setupAll_observerId (L : List (Role × AttrKind)) (s : VTKDataSource) :
    (setupAll L s).observerId = s.observerId := by
  induction L generalizing s with
  | nil => rfl
  | cons rk rest ih =>
    rw [show setupAll (rk :: rest) s = setupAll rest (setupAttr rk.1 rk.2 s) from rfl,
      ih, setupAttr_observerId]

lemma setupAll_data_some (L : List (Role × AttrKind)) (s : VTKDataSource) (d : Dataset)
    (hd : s.data = some d) :
    ∃ d2, (setupAll L s).data = some d2 ∧ d2.attrs = d.attrs ∧ d2.id = d.id := by
  induction L generalizing s d with
  | nil => exact ⟨d, hd, rfl, rfl⟩
  | cons rk rest ih =>
    obtain ⟨d2, hd2, hattrs, hid⟩ := setupAttr_data_some rk.1 rk.2 s d hd
    obtain ⟨d3, hd3, hattrs3, hid3⟩ := ih (setupAttr rk.1 rk.2 s) d2 hd2
    exact ⟨d3, hd3, by rw [hattrs3, hattrs], by rw [hid3, hid]⟩

lemma setupAll_append (L1 L2 : List (Role × AttrKind)) (s : VTKDataSource) :
    setupAll (L1 ++ L2) s = setupAll L2 (setupAll L1 s) := by
  unfold setupAll
  rw [List.foldl_append]

lemma updateData_sel (s : VTKDataSource) (d : Dataset) (hd : s.data = some d) :
    (updateData s).sel = (setupAll rkOrder s).sel := by
  unfold updateData
  rw [hd]
  dsimp only
  split <;> rfl

lemma updateData_lists (s : VTKDataSource) (d : Dataset) (hd : s.data = some d) :
    (updateData s).lists = (setupAll rkOrder s).lists := by
  unfold updateData
  rw [hd]
  dsimp only
  split <;> rfl

lemma updateData_dataField (s : VTKDataSource) (d : Dataset) (hd : s.data = some d) :
    (updateData s).data = (setupAll rkOrder s).data := by
  unfold updateData
  rw [hd]
  dsimp only
  split <;> rfl

lemma updateData_observerId (s : VTKDataSource) : (updateData s).observerId = s.observerId := by
  unfold updateData
  rcases hd : s.data with _ | d
  · rfl
  · dsimp only
    split <;> simp [setupAll_observerId]

lemma updateData_data_some (s : VTKDataSource) (d : Dataset) (hd : s.data = some d) :
    ∃ d2, (updateData s).data = some d2 ∧ d2.id = d.id := by
  obtain ⟨d2, hd2, _, hid⟩ := setupAll_data_some rkOrder s d hd
  exact ⟨d2, by rw [updateData_dataField s d hd, hd2], hid⟩

lemma rkOrder_decomp (r : Role) (k : AttrKind) :
    ∃ A B, rkOrder = A ++ (r, k) :: B ∧
      (∀ rk ∈ A, ¬(rk.1 = r ∧ rk.2 = k)) ∧ (∀ rk ∈ B, ¬(rk.1 = r ∧ rk.2 = k)) := by
  cases r <;> cases k
  · exact ⟨[], [(Role.point, AttrKind.vectors), (Role.point, AttrKind.tensors),
      (Role.cell, AttrKind.scalars), (Role.cell, AttrKind.vectors),
      (Role.cell, AttrKind.tensors)], rfl, by decide, by decide⟩
  · exact ⟨[(Role.point, AttrKind.scalars)], [(Role.point, AttrKind.tensors),
      (Role.cell, AttrKind.scalars), (Role.cell, AttrKind.vectors),
      (Role.cell, AttrKind.tensors)], rfl, by decide, by decide⟩
  · exact ⟨[(Role.point, AttrKind.scalars), (Role.point, AttrKind.vectors)],
      [(Role.cell, AttrKind.scalars), (Role.cell, AttrKind.vectors),
       (Role.cell, AttrKind.tensors)], rfl, by decide, by decide⟩
  · exact ⟨[(Role.point, AttrKind.scalars), (Role.point, AttrKind.vectors),
      (Role.point, AttrKind.tensors)],
      [(Role.cell, AttrKind.vectors), (Role.cell, AttrKind.tensors)], rfl,
      by decide, by decide⟩
  · exact ⟨[(Role.point, AttrKind.scalars), (Role.point, AttrKind.vectors),
      (Role.point, AttrKind.tensors), (Role.cell, AttrKind.scalars)],
      [(Role.cell, AttrKind.tensors)], rfl, by decide, by decide⟩
  · exact ⟨[(Role.point, AttrKind.scalars), (Role.point, AttrKind.vectors),
      (Role.point, AttrKind.tensors), (Role.cell, AttrKind.scalars),
      (Role.cell, AttrKind.vectors)], [], rfl, by decide, by decide⟩

/-! ## Claims C2 and C10: the data-refresh pass -/

/-- C2: in the data-refresh pass, for every (role, kind) selector: on the
very first pass only, a selector whose value is empty and whose candidate
list has at least one real name is set to the first real candidate; on a
subsequent pass, a non-empty selector value still present among the
candidates is kept and never overwritten by the first candidate. -/
theorem update_data_selector_defaulting (s : VTKDataSource) (d : Dataset) (r : Role)
    (k : AttrKind) (hd : s.data = some d) :
    (s.first = true → s.sel.get r k = "" → attrNames d r k ≠ [] →
       (updateData s).sel.get r k = (attrNames d r k).headD "") ∧
    (s.first = false → s.sel.get r k ≠ "" → s.sel.get r k ∈ attrNames d r k →
       (updateData s).sel.get r k = s.sel.get r k) := by
  obtain ⟨A, B, hAB, hA, hB⟩ := rkOrder_decomp r k
  obtain ⟨hselA, hlistsA, hfirstA, dA, hdA, hattrsA, _, hactA⟩ :=
    setupAll_frame A r k hA s d hd
  have hnames : attrNames dA r k = attrNames d r k := attrNames_congr dA d hattrsA r k
  have hsel_upd : (updateData s).sel.get r k =
      (setupAll B (setupAttr r k (setupAll A s))).sel.get r k := by
    rw [updateData_sel s d hd, hAB, setupAll_append]
    rfl
  constructor
  · intro h1 h2 h3
    have hne : attrNames dA r k ≠ [] := by rw [hnames]; exact h3
    have hstep := setupAttr_of_names r k (setupAll A s) dA hdA hne
    obtain ⟨d2, hd2, _, _⟩ := setupAttr_data_some r k (setupAll A s) dA hdA
    obtain ⟨hselB, _, _, _⟩ := setupAll_frame B r k hB (setupAttr r k (setupAll A s)) d2 hd2
    rw [hsel_upd, hselB, hstep]
    dsimp only
    rw [selNames_get_set_self]
    rw [if_pos ⟨by rw [hfirstA]; exact h1, by rw [hselA]; exact h2⟩, hnames]
  · intro h1 h2 h3
    have hne : attrNames dA r k ≠ [] := by rw [hnames]; exact List.ne_nil_of_mem h3
    have hstep := setupAttr_of_names r k (setupAll A s) dA hdA hne
    obtain ⟨d2, hd2, _, _⟩ := setupAttr_data_some r k (setupAll A s) dA hdA
    obtain ⟨hselB, _, _, _⟩ := setupAll_frame B r k hB (setupAttr r k (setupAll A s)) d2 hd2
    rw [hsel_upd, hselB, hstep]
    dsimp only
    rw [selNames_get_set_self]
    rw [if_neg (by rw [hfirstA, hselA, h1]; simp), hselA]

theorem update_data_selector_defaulting_witness :
    (updateData { initialSource with data := some exDatasetB }).sel.get
        Role.point AttrKind.scalars = "temperature" := by
  have h := (update_data_selector_defaulting
    { initialSource with data := some exDatasetB } exDatasetB
    Role.point AttrKind.scalars rfl).1 rfl rfl (by decide)
  rw [h]
  rfl

/-- C10: for a (role, kind) pair whose discovered candidate list holds no
real array names, the refresh pass stores the sentinel-only list but leaves
that pair's selector value, that pair's active attribute on the dataset,
and (within that pair's step) the `AssignAttribute` untouched — the
previously active attribute is not deactivated. -/
theorem update_data_sentinel_frame (s : VTKDataSource) (d : Dataset) (r : Role)
    (k : AttrKind) (hd : s.data = some d) (hempty : attrNames d r k = []) :
    setupAttr r k s = { s with lists := s.lists.set r k [""] } ∧
    (updateData s).sel.get r k = s.sel.get r k ∧
    (updateData s).lists.get r k = [""] ∧
    (updateData s).data.map (fun d2 => (d2.tableAt r).getActive k) =
      s.data.map (fun d2 => (d2.tableAt r).getActive k) := by
  obtain ⟨A, B, hAB, hA, hB⟩ := rkOrder_decomp r k
  obtain ⟨hselA, hlistsA, hfirstA, dA, hdA, hattrsA, _, hactA⟩ :=
    setupAll_frame A r k hA s d hd
  have hnames : attrNames dA r k = [] := by
    rw [attrNames_congr dA d hattrsA]
    exact hempty
  have hstep := setupAttr_sentinel r k (setupAll A s) dA hdA hnames
  have hd2 : (setupAttr r k (setupAll A s)).data = some dA := by
    rw [hstep]
    exact hdA
  obtain ⟨hselB, hlistsB, _, dB, hdB, _, _, hactB⟩ :=
    setupAll_frame B r k hB (setupAttr r k (setupAll A s)) dA hd2
  have hfull : setupAll rkOrder s = setupAll B (setupAttr r k (setupAll A s)) := by
    rw [hAB, setupAll_append]
    rfl
  refine ⟨setupAttr_sentinel r k s d hd hempty, ?_, ?_, ?_⟩
  · rw [updateData_sel s d hd, hfull, hselB, hstep]
    dsimp only
    rw [hselA]
  · rw [updateData_lists s d hd, hfull, hlistsB, hstep]
    dsimp only
    rw [selLists_get_set_self]
  · rw [updateData_dataField s d hd, hfull, hdB, hd]
    simp only [Option.map_some']
    rw [hactB, hactA]

theorem update_data_sentinel_frame_witness :
    (updateData exSourceVTK).data.map
        (fun d2 => (d2.tableAt Role.cell).getActive AttrKind.scalars) =
      some (some "voltage") ∧
    (updateData exSourceVTK).sel.get Role.cell AttrKind.scalars = "voltage" := by
  have h := update_data_sentinel_frame exSourceVTK exDatasetC Role.cell
    AttrKind.scalars rfl rfl
  exact ⟨by rw [h.2.2.2]; rfl, by rw [h.2.1]; rfl⟩

/-! ## Claim C9: the selector change hook on `None` -/

/-- C9: the selector change hook invoked with `None` returns immediately,
leaving the whole state (dataset active attributes, assigner, notification
count) unchanged; by contrast an empty string deactivates the attribute
kind on that role's table and fires `data_changed`, still without invoking
the assigner. -/
theorem set_data_name_none_returns (s : VTKDataSource) (k : AttrKind) (r : Role) :
    setDataName s k r none = some s ∧
    (∀ d, s.data = some d →
      setDataName s k r (some "") =
        some { s with data := some (d.setActiveAt r k none),
                      dataChangedCount := s.dataChangedCount + 1 } ∧
      ((d.setActiveAt r k none).tableAt r).getActive k = none) := by
  refine ⟨rfl, ?_⟩
  intro d hd
  constructor
  · unfold setDataName
    rw [hd]
    simp
  · exact Dataset.getActive_setActiveAt_self d r k none

theorem set_data_name_none_returns_witness :
    setDataName exSourceVTK AttrKind.scalars Role.point none = some exSourceVTK ∧
    setDataName exSourceVTK AttrKind.scalars Role.point (some "") =
      some { exSourceVTK with
             data := some (exDatasetC.setActiveAt Role.point AttrKind.scalars none),
             dataChangedCount := exSourceVTK.dataChangedCount + 1 } :=
  ⟨(set_data_name_none_returns exSourceVTK AttrKind.scalars Role.point).1,
   ((set_data_name_none_returns exSourceVTK AttrKind.scalars Role.point).2
      exDatasetC rfl).1⟩

/-! ## Claim C3: the modification-observer invariant -/

lemma assignData_step (s : VTKDataSource) (w : World) (dOld dNew : Dataset)
    (h1 : s.data = some dOld) (h2 : w.observers = [(dOld.id, s.observerId)]) :
    (∃ d2, (assignData s w dNew).1.data = some d2 ∧ d2.id = dNew.id ∧
      (assignData s w dNew).2.observers =
        [(d2.id, (assignData s w dNew).1.observerId)]) ∧
    (assignData s w dNew).2.trace =
      w.trace ++ [ObsEvent.removedObs dOld.id s.observerId,
                  ObsEvent.addedObs dNew.id w.nextId] := by
  unfold assignData dataChangedHook
  rw [h1]
  dsimp only
  obtain ⟨d2, hd2, hid2⟩ := updateData_data_some
    { s with data := some dNew, aa := { s.aa with input := some dNew.id } } dNew rfl
  refine ⟨⟨d2, hd2, hid2, ?_⟩, ?_⟩
  · simp [World.removeObserver, World.addObserver, updateData_observerId, h2, hid2]
  · simp [World.removeObserver, World.addObserver, updateData_observerId]

lemma assignData_fresh (s : VTKDataSource) (w : World) (dNew : Dataset)
    (h1 : s.data = none) (h2 : w.observers = []) :
    ∃ d2, (assignData s w dNew).1.data = some d2 ∧ d2.id = dNew.id ∧
      (assignData s w dNew).2.observers =
        [(d2.id, (assignData s w dNew).1.observerId)] := by
  unfold assignData dataChangedHook
  rw [h1]
  dsimp only
  obtain ⟨d2, hd2, hid2⟩ := updateData_data_some
    { s with data := some dNew, aa := { s.aa with input := some dNew.id } } dNew rfl
  refine ⟨d2, hd2, hid2, ?_⟩
  simp [World.addObserver, h2, hid2]

lemma assignAll_oneSub (ds : List Dataset) (sw : VTKDataSource × World)
    (h : oneSub sw) : oneSub (assignAll sw ds) := by
  induction ds generalizing sw with
  | nil => exact h
  | cons dN rest ih =>
    obtain ⟨d2, hd2, hobs⟩ := h
    obtain ⟨d3, hd3, _, hobs3⟩ := (assignData_step sw.1 sw.2 d2 dN hd2 hobs).1
    exact ih (assignData sw.1 sw.2 dN) ⟨d3, hd3, hobs3⟩

/-- C3: any sequence of dataset assignments starting from a fresh
`VTKDataSource` leaves exactly one native ModifiedEvent subscription
active, on the current dataset; and any single assignment replacing an
existing dataset first removes the old dataset's subscription and only
then adds the one on the new dataset (the trace order). -/
theorem vtk_dataset_observer_subscription (d0 dNew dOld : Dataset)
    (ds : List Dataset) (s : VTKDataSource) (w : World)
    (h1 : s.data = some dOld) (h2 : w.observers = [(dOld.id, s.observerId)]) :
    oneSub (assignAll (assignData initialSource initialWorld d0) ds) ∧
    oneSub (assignData s w dNew) ∧
    (assignData s w dNew).2.trace =
      w.trace ++ [ObsEvent.removedObs dOld.id s.observerId,
                  ObsEvent.addedObs dNew.id w.nextId] := by
  refine ⟨?_, ?_, (assignData_step s w dOld dNew h1 h2).2⟩
  · obtain ⟨d2, ha, _, hc⟩ := assignData_fresh initialSource initialWorld d0 rfl rfl
    exact assignAll_oneSub ds _ ⟨d2, ha, hc⟩
  · obtain ⟨d2, ha, _, hc⟩ := (assignData_step s w dOld dNew h1 h2).1
    exact ⟨d2, ha, hc⟩

theorem vtk_dataset_observer_subscription_witness :
    oneSub (assignAll (assignData initialSource initialWorld exDatasetA) []) ∧
    oneSub (assignData exAssignedA.1 exAssignedA.2 exDatasetB) ∧
    (assignData exAssignedA.1 exAssignedA.2 exDatasetB).2.trace =
      exAssignedA.2.trace ++
        [ObsEvent.removedObs exDatasetA.id exAssignedA.1.observerId,
         ObsEvent.addedObs exDatasetB.id exAssignedA.2.nextId] :=
  vtk_dataset_observer_subscription exDatasetA exDatasetB exDatasetA []
    exAssignedA.1 exAssignedA.2 rfl rfl

/-! ## Claim C4: restore order -/

lemma assignData_data_id (s : VTKDataSource) (w : World) (d : Dataset) :
    ∃ d2, (assignData s w d).1.data = some d2 ∧ d2.id = d.id := by
  unfold assignData dataChangedHook
  dsimp only
  exact updateData_data_some
    { s with data := some d, aa := { s.aa with input := some d.id } } d rfl

/-- C4 counterexample: at a concrete persisted record carrying a dataset,
the restore phase trace is dataset-first, not scalar-fields-first as
claimed. -/
theorem set_pure_state_scalar_first_counterexample :
    (setPureState initialSource initialWorld exPureState).2.2 ≠
      [RestorePhase.scalarPhase, RestorePhase.dataPhase, RestorePhase.childPhase] := by
  decide

/-- C4 (amended): when a persisted `VTKDataSource` record carrying a
dataset is restored, state is applied strictly in the order: dataset first
(through the full dataset-replacement hook), then the scalar (non-child)
fields, then the children. -/
theorem set_pure_state_restore_order (s : VTKDataSource) (w : World) (st : PureState)
    (d : Dataset) (hd : st.data = some d) :
    (setPureState s w st).2.2 =
      [RestorePhase.dataPhase, RestorePhase.scalarPhase, RestorePhase.childPhase] ∧
    (setPureState s w st).1.name = st.name ∧
    (setPureState s w st).1.childrenR = st.children ∧
    ∃ d2, (setPureState s w st).1.data = some d2 ∧ d2.id = d.id := by
  unfold setPureState
  rw [hd]
  dsimp only
  exact ⟨rfl, rfl, rfl, assignData_data_id s w d⟩

theorem set_pure_state_restore_order_witness :
    (setPureState initialSource initialWorld exPureState).2.2 =
      [RestorePhase.dataPhase, RestorePhase.scalarPhase, RestorePhase.childPhase] ∧
    (setPureState initialSource initialWorld exPureState).1.name = "restored" :=
  ⟨(set_pure_state_restore_order initialSource initialWorld exPureState
      exDatasetA rfl).1,
   (set_pure_state_restore_order initialSource initialWorld exPureState
      exDatasetA rfl).2.1⟩

end Mayavi
